import Mathlib

/-!
Shallow embedding of `src/mpa/cls/inferrer.py` (class `ClsInferrer`, methods
`run` and `_infer`) together with theorems checking the specification's claims
about it.

Modelling conventions:
* External framework services (mmcls dataset/dataloader/model construction,
  checkpoint loading) are opaque parameters collected in `Ext`; the dataloader
  built with `shuffle=False, round_up=False, dist=False` is modelled as
  chunking the dataset list into consecutive batches of `samples_per_gpu`.
* Side effects (directory creation, file writes, model construction calls,
  forward passes) are recorded as an explicit event trace.
* Fatal assertion failure is modelled as `Except.error`; the assertion message
  is abbreviated since its interpolated values play no role in the claims.
* `hasattr(self, 'eval')` is the Boolean `Stage.hasEval`; `hasattr(model,
  'extract_prob')` is `Ext.extract_prob`.
-/

variable {σ ρ φ μ π : Type}

/-- A dataset configuration: `pipeline` is the `pipeline` attribute, `source`
stands for every other field (which the code copies around unchanged). -/
structure DataCfg where
  source : String
  pipeline : String
  deriving DecidableEq

/-- The `cfg.data` section used by `_infer`. -/
structure DataSection where
  train : DataCfg
  test : DataCfg
  samples_per_gpu : Nat
  workers_per_gpu : Nat
  deriving DecidableEq

/-- The resolved configuration returned by `self.configure(...)`, restricted to
the fields `run` and `_infer` read. `fp16` is whether `cfg.get('fp16')` is not
`None`. -/
structure Cfg where
  data : DataSection
  task_adapt : Bool
  work_dir : String
  load_from : Option String
  fp16 : Bool
  deriving DecidableEq

/-- The enclosing stage's attributes that `run`/`_infer` read: the allowed-mode
collection `self.mode` and whether `self` has an `eval` attribute. -/
structure Stage where
  mode : List String
  hasEval : Bool
  deriving DecidableEq

/-- The keyword options recognised by `run` (each `None` when absent). -/
structure Kwargs where
  dump_features : Option Bool
  dump_saliency_map : Option Bool
  mode : Option String
  deriving DecidableEq

/-- The arguments `_infer` passes to `build_dataloader`. -/
structure LoaderArgs where
  samples_per_gpu : Nat
  workers_per_gpu : Nat
  dist : Bool
  shuffle : Bool
  round_up : Bool
  persistent_workers : Bool
  deriving DecidableEq

/-- The dictionary built at the end of `_infer` from the three accumulator
lists. A feature vector or saliency map entry is `none` for the `None`
placeholder. -/
structure Bundle (ρ φ μ : Type) where
  eval_predictions : List ρ
  feature_vectors : List (Option φ)
  saliency_maps : List (Option μ)
  deriving DecidableEq

/-- A dataset record (`data_info`): its original content `info` plus the
`soft_label` key, present after the task-adaptation augmentation loop. -/
structure DataInfo (σ π : Type) where
  info : σ
  soft_label : Option (List (String × π))
  deriving DecidableEq

/-- The external framework services `run`/`_infer` call, as opaque data:
`cfg` is the result of `self.configure(...)`, `build_dataset` the mmcls
dataset builder (a dataset is its list of records), `forward` the wrapped
model applied to one batch, `extract_prob` whether the model has an
`extract_prob` attribute. `featureOf`/`saliencyOf` give the per-sample
values captured by the auxiliary hooks, and `old_prob` the per-task
probability table returned by `prob_extractor` (a task name together with
its per-record-index probabilities). -/
structure ExtEnv (σ ρ φ μ π : Type) where
  cfg : Cfg
  build_dataset : DataCfg → List σ
  forward : List σ → List ρ
  featureOf : σ → φ
  saliencyOf : σ → μ
  extract_prob : Bool
  old_prob : List (String × (Nat → π))

/-- One observable side effect of `run`/`_infer`, in program order. -/
inductive Event (σ ω : Type) where
  | configure
  | mkdir (dir : String)
  | buildDataset (dcfg : DataCfg)
  | buildDataloader (args : LoaderArgs)
  | buildModel
  | wrapFp16
  | loadCheckpoint (path : String)
  | modelEval
  | probExtract
  | forwardPass (noGrad : Bool) (batch : List σ)
  | save (path : String) (data : ω)
  deriving DecidableEq

/-- Whether an event is a model forward pass. -/
def Event.isForward : Event σ ω → Bool
  | Event.forwardPass _ _ => true
  | _ => false

/-- Consecutive-batch splitting, with explicit fuel so that it computes by
`rfl` (the fuel is always the list length, an upper bound on the number of
batches). -/
def chunksAux (n : Nat) : Nat → List α → List (List α)
  | _, [] => []
  | 0, _ :: _ => []
  | fuel + 1, x :: xs => (x :: List.take (n - 1) xs) :: chunksAux n fuel (List.drop (n - 1) xs)

/-- Modelled from the spec: the batches produced by the external
`build_dataloader` with `shuffle=False, dist=False, round_up=False` are the
dataset's records in order, split into consecutive batches of
`samples_per_gpu` ("no shuffling, no distribution across workers",
"accumulating predictions in iteration order"). -/
def chunks (n : Nat) (xs : List α) : List (List α) := chunksAux n xs.length xs

/-- Modelled from the spec: `FeatureVectorHook` (in
`mpa/modules/hooks/auxiliary_hooks.py`, not under `src/`) captures one feature
vector per sample forwarded while the hook is attached ("captured via scoped
instrumentation around the backbone sub-model during the forward pass";
"dataset of 10 samples, dump_features=True → outputs.feature_vectors has 10
non-null entries"). -/
def FeatureVectorHook.records (ext : ExtEnv σ ρ φ μ π) (ds : List σ) : List φ :=
  ds.map ext.featureOf

/-- Modelled from the spec: `SaliencyMapHook` (in
`mpa/modules/hooks/auxiliary_hooks.py`, not under `src/`) captures one
saliency map per sample forwarded while the hook is attached. -/
def SaliencyMapHook.records (ext : ExtEnv σ ρ φ μ π) (ds : List σ) : List μ :=
  ds.map ext.saliencyOf

/-- The augmentation loop of `_infer` (lines 97-99): record `i` gains a
`soft_label` dictionary mapping each task of `old_prob` to the `i`-th entry of
that task's probabilities. The table `old_prob` itself comes from
`prob_extractor` (in `mpa/modules/utils/task_adapt.py`, not under `src/`),
modelled from the spec as an opaque per-task, per-record table. -/
def attachSoftLabels (old_prob : List (String × (Nat → π))) (ds : List σ) :
    List (DataInfo σ π) :=
  ds.enum.map fun p =>
    { info := p.2, soft_label := some (old_prob.map fun tv => (tv.1, tv.2 p.1)) }

/-- The `self.dataset` / `self.extract_prob` attributes left on the stage
object after `_infer`. -/
structure StagePost (σ π : Type) where
  dataset : List (DataInfo σ π)
  extract_prob : Bool
  deriving DecidableEq

/-- The dataset configuration `_infer` builds its dataset from: the training
data configuration with the test pipeline when `task_adapt` is set and the
stage has no `eval` attribute, the test data configuration otherwise. -/
def datasetCfgOf (cfg : Cfg) (st : Stage) : DataCfg :=
  if cfg.task_adapt && !st.hasEval then
    { cfg.data.train with pipeline := cfg.data.test.pipeline }
  else
    cfg.data.test

/-- The literal arguments of the `build_dataloader` call in `_infer`. -/
def loaderArgsOf (cfg : Cfg) : LoaderArgs :=
  { samples_per_gpu := cfg.data.samples_per_gpu
    workers_per_gpu := cfg.data.workers_per_gpu
    dist := false
    shuffle := false
    round_up := false
    persistent_workers := false }

/-- The events of `_infer` preceding `model.eval()`: dataset build, dataloader
build, classifier build, optional fp16 wrap, optional checkpoint load. -/
def setupTrace (cfg : Cfg) (st : Stage) : List (Event σ ω) :=
  [Event.buildDataset (datasetCfgOf cfg st),
   Event.buildDataloader (loaderArgsOf cfg),
   Event.buildModel]
  ++ (if cfg.fp16 then [Event.wrapFp16] else [])
  ++ (match cfg.load_from with
      | some p => [Event.loadCheckpoint p]
      | none => [])

/-- The `assert len(eval_predictions) == len(feature_vectors) ==
len(saliency_maps)` at the end of `_infer`; failure is fatal
(`Except.error`), never a recoverable value. -/
def assertEqualLengths (b : Bundle ρ φ μ) : Except String (Bundle ρ φ μ) :=
  if b.eval_predictions.length = b.feature_vectors.length ∧
      b.feature_vectors.length = b.saliency_maps.length then
    Except.ok b
  else
    Except.error "Number of elements should be the same"

/-- What a call to `_infer` produces: its return value (or fatal assertion
failure), its event trace, and the attributes left on the stage. -/
structure InferOutcome (σ ρ φ μ π : Type) where
  result : Except String (Bundle ρ φ μ)
  trace : List (Event σ (Bundle ρ φ μ))
  post : StagePost σ π

/-- Embedding of `ClsInferrer._infer` (src/mpa/cls/inferrer.py lines 57-119).
Note that in the task-adaptation extraction branch the source's
`outputs = data_infos` (line 100) is a dead store: the unconditional
`outputs = dict(...)` at lines 114-118 overwrites it, so the returned bundle
carries the three accumulator lists, which that branch leaves empty. The
annotated records survive only on `self.dataset` (mutated in place). -/
def ClsInferrer.infer (st : Stage) (ext : ExtEnv σ ρ φ μ π) (cfg : Cfg)
    (dump_features dump_saliency_map : Bool) : InferOutcome σ ρ φ μ π :=
  let ds := ext.build_dataset (datasetCfgOf cfg st)
  let batches := chunks cfg.data.samples_per_gpu ds
  if cfg.task_adapt && !st.hasEval && ext.extract_prob then
    let data_infos := attachSoftLabels ext.old_prob ds
    { result := assertEqualLengths
        { eval_predictions := ([] : List ρ), feature_vectors := [], saliency_maps := [] }
      trace := setupTrace cfg st ++ [Event.modelEval, Event.probExtract]
      post := { dataset := data_infos, extract_prob := ext.extract_prob } }
  else
    let eval_predictions := (batches.map ext.forward).flatten
    let feature_vectors :=
      if dump_features then (FeatureVectorHook.records ext ds).map some
      else List.replicate ds.length none
    let saliency_maps :=
      if dump_saliency_map then (SaliencyMapHook.records ext ds).map some
      else List.replicate ds.length none
    { result := assertEqualLengths { eval_predictions, feature_vectors, saliency_maps }
      trace := setupTrace cfg st ++ [Event.modelEval] ++ batches.map (Event.forwardPass true)
      post := { dataset := ds.map fun s => { info := s, soft_label := none }
                extract_prob := ext.extract_prob } }

/-- The dictionary `run` returns: at most one of the two keys is present. -/
structure RunResult (ρ φ μ : Type) where
  pre_stage_res : Option String
  outputs : Option (Bundle ρ φ μ)
  deriving DecidableEq

/-- What a call to `run` produces: its return value (or propagated fatal
assertion failure), its event trace, and the stage attributes `_infer` set
(none when the mode gate rejected the run before `_infer`). -/
structure RunOutcome (σ ρ φ μ π : Type) where
  result : Except String (RunResult ρ φ μ)
  trace : List (Event σ (Bundle ρ φ μ))
  post : Option (StagePost σ π)

/-- Embedding of `ClsInferrer.run` (src/mpa/cls/inferrer.py lines 27-55). -/
def ClsInferrer.run (st : Stage) (ext : ExtEnv σ ρ φ μ π) (kw : Kwargs) :
    RunOutcome σ ρ φ μ π :=
  let dump_features := kw.dump_features.getD false
  let dump_saliency_map := kw.dump_saliency_map.getD false
  let mode := kw.mode.getD "train"
  if mode ∉ st.mode then
    { result := Except.ok { pre_stage_res := none, outputs := none }
      trace := []
      post := none }
  else
    let cfg := ext.cfg
    let inf := ClsInferrer.infer st ext cfg dump_features dump_saliency_map
    let trace0 := Event.configure :: Event.mkdir cfg.work_dir :: inf.trace
    match inf.result with
    | Except.error e =>
        { result := Except.error e, trace := trace0, post := some inf.post }
    | Except.ok outputs =>
        if cfg.task_adapt && inf.post.extract_prob then
          let output_file_path := cfg.work_dir ++ "/pre_stage_res.npy"
          { result := Except.ok { pre_stage_res := some output_file_path, outputs := none }
            trace := trace0 ++ [Event.save output_file_path outputs]
            post := some inf.post }
        else
          { result := Except.ok { pre_stage_res := none, outputs := some outputs }
            trace := trace0
            post := some inf.post }

/-- Helper: with enough fuel, chunking is a partition: flattening the batches
recovers the list. -/
theorem chunksAux_flatten (n : Nat) :
    ∀ (fuel : Nat) (xs : List α), xs.length ≤ fuel → (chunksAux n fuel xs).flatten = xs := by
  intro fuel
  induction fuel with
  | zero => intro xs h; cases xs <;> simp_all [chunksAux]
  | succ f ih =>
      intro xs h
      cases xs with
      | nil => simp [chunksAux]
      | cons x rest =>
          have hlen : (List.drop (n - 1) rest).length ≤ f := by
            simp only [List.length_drop]
            simp at h
            omega
          simp [chunksAux, ih _ hlen, List.take_append_drop]

/-- Helper: the dataloader batches partition the dataset in order. -/
theorem chunks_flatten (n : Nat) (xs : List α) : (chunks n xs).flatten = xs :=
  chunksAux_flatten n xs.length xs (Nat.le_refl _)

/-- Helper: if a per-batch function preserves batch length, flattening its
image preserves total length. -/
theorem flatten_map_length {α β : Type} (f : List α → List β) (bs : List (List α))
    (h : ∀ b ∈ bs, (f b).length = b.length) :
    ((bs.map f).flatten).length = bs.flatten.length := by
  induction bs with
  | nil => simp
  | cons b rest ih =>
      simp only [List.map_cons, List.flatten_cons, List.length_append]
      rw [h b (by simp), ih (fun c hc => h c (by simp [hc]))]

/-- Helper: inversion of the length assertion: a returned bundle is the
asserted bundle and its three lists have equal lengths. -/
theorem assertEqualLengths_ok {ρ φ μ : Type} {b b' : Bundle ρ φ μ}
    (h : assertEqualLengths b = Except.ok b') :
    b' = b ∧ b.eval_predictions.length = b.feature_vectors.length ∧
      b.feature_vectors.length = b.saliency_maps.length := by
  unfold assertEqualLengths at h
  split at h
  · exact ⟨by cases h; rfl, by assumption⟩
  · cases h

/-- Helper: when the three lists have equal lengths, the assertion passes. -/
theorem assertEqualLengths_eq_ok {ρ φ μ : Type} {b : Bundle ρ φ μ}
    (h1 : b.eval_predictions.length = b.feature_vectors.length)
    (h2 : b.feature_vectors.length = b.saliency_maps.length) :
    assertEqualLengths b = Except.ok b := by
  unfold assertEqualLengths
  rw [if_pos ⟨h1, h2⟩]

/-- Helper: the setup events contain no forward pass. -/
theorem setupTrace_no_forward (cfg : Cfg) (st : Stage) :
    ∀ e ∈ (setupTrace cfg st : List (Event σ ω)), e.isForward = false := by
  intro e he
  have hshape : e = Event.buildDataset (datasetCfgOf cfg st) ∨
      e = Event.buildDataloader (loaderArgsOf cfg) ∨ e = Event.buildModel ∨
      e = Event.wrapFp16 ∨ ∃ p, e = Event.loadCheckpoint p := by
    unfold setupTrace at he
    rcases hl : cfg.load_from with _ | p <;> rcases hf : cfg.fp16 <;>
      simp [hl, hf] at he <;> tauto
  rcases hshape with h | h | h | h | ⟨p, h⟩ <;> subst h <;> rfl

/-- Helper: the only dataloader-construction event in the setup events carries
the literal arguments of the `build_dataloader` call. -/
theorem setupTrace_buildDataloader (cfg : Cfg) (st : Stage) (a : LoaderArgs)
    (h : (Event.buildDataloader a : Event σ ω) ∈ setupTrace cfg st) :
    a = loaderArgsOf cfg := by
  unfold setupTrace at h
  rcases hl : cfg.load_from with _ | p <;> rcases hf : cfg.fp16 <;>
    simp [hl, hf, List.mem_append] at h <;> exact h

/-- Helper: the dataloader-construction event is among the setup events. -/
theorem buildDataloader_mem_setupTrace (cfg : Cfg) (st : Stage) :
    (Event.buildDataloader (loaderArgsOf cfg) : Event σ ω) ∈ setupTrace cfg st := by
  unfold setupTrace
  simp [List.mem_append]

/-- Helper: the only dataset-construction event in the setup events carries
the dataset configuration selected by `_infer`. -/
theorem setupTrace_buildDataset (cfg : Cfg) (st : Stage) (d : DataCfg)
    (h : (Event.buildDataset d : Event σ ω) ∈ setupTrace cfg st) :
    d = datasetCfgOf cfg st := by
  unfold setupTrace at h
  rcases hl : cfg.load_from with _ | p <;> rcases hf : cfg.fp16 <;>
    simp [hl, hf, List.mem_append] at h <;> exact h

/-- Helper: the dataset-construction event is among the setup events. -/
theorem buildDataset_mem_setupTrace (cfg : Cfg) (st : Stage) :
    (Event.buildDataset (datasetCfgOf cfg st) : Event σ ω) ∈ setupTrace cfg st := by
  unfold setupTrace
  simp [List.mem_append]

/-- Helper: the setup events contain no save event. -/
theorem setupTrace_no_save (cfg : Cfg) (st : Stage) (p : String) (d : ω)
    (h : (Event.save p d : Event σ ω) ∈ setupTrace cfg st) : False := by
  unfold setupTrace at h
  rcases hl : cfg.load_from with _ | q <;> rcases hf : cfg.fp16 <;>
    simp [hl, hf, List.mem_append] at h

/-- Helper: shape of the `_infer` trace: the setup events, then `model.eval()`,
then a tail consisting only of the loop events (no-gradient forward passes in
batch order, or the probability-extraction pass). -/
theorem infer_trace_shape (st : Stage) (ext : ExtEnv σ ρ φ μ π) (cfg : Cfg)
    (df dsm : Bool) :
    ∃ tail, (ClsInferrer.infer st ext cfg df dsm).trace =
        setupTrace cfg st ++ Event.modelEval :: tail ∧
      (∀ e ∈ tail, e = Event.probExtract ∨
        ∃ b, e = Event.forwardPass true b ∧
          b ∈ chunks cfg.data.samples_per_gpu (ext.build_dataset (datasetCfgOf cfg st))) := by
  unfold ClsInferrer.infer
  split
  · exact ⟨[Event.probExtract], by simp⟩
  · refine ⟨(chunks cfg.data.samples_per_gpu (ext.build_dataset (datasetCfgOf cfg st))).map
      (Event.forwardPass true), by simp, ?_⟩
    intro e he
    simp only [List.mem_map] at he
    obtain ⟨b, hb, rfl⟩ := he
    exact Or.inr ⟨b, rfl, hb⟩

/-- Helper: the `_infer` result is the length assertion applied to the final
bundle, in both branches; hence every returned bundle has three lists of equal
length. -/
theorem infer_result_lengths (st : Stage) (ext : ExtEnv σ ρ φ μ π) (cfg : Cfg)
    (df dsm : Bool) (b : Bundle ρ φ μ)
    (h : (ClsInferrer.infer st ext cfg df dsm).result = Except.ok b) :
    b.eval_predictions.length = b.feature_vectors.length ∧
      b.feature_vectors.length = b.saliency_maps.length := by
  unfold ClsInferrer.infer at h
  split at h <;>
    simp only at h <;>
    obtain ⟨rfl, h1, h2⟩ := assertEqualLengths_ok h <;> exact ⟨h1, h2⟩

/-- Helper: in the non-extraction branch, `_infer` succeeds whenever the model
emits one prediction per sample, and the returned bundle is the accumulated
predictions together with the captured or placeholder lists. -/
theorem infer_else_result (st : Stage) (ext : ExtEnv σ ρ φ μ π) (cfg : Cfg)
    (df dsm : Bool)
    (hbranch : (cfg.task_adapt && !st.hasEval && ext.extract_prob) = false)
    (hfwd : ∀ b : List σ, (ext.forward b).length = b.length) :
    (ClsInferrer.infer st ext cfg df dsm).result = Except.ok
      { eval_predictions :=
          (((chunks cfg.data.samples_per_gpu (ext.build_dataset (datasetCfgOf cfg st))).map
            ext.forward).flatten : List ρ)
        feature_vectors :=
          if df then (FeatureVectorHook.records ext (ext.build_dataset (datasetCfgOf cfg st))).map some
          else List.replicate (ext.build_dataset (datasetCfgOf cfg st)).length none
        saliency_maps :=
          if dsm then (SaliencyMapHook.records ext (ext.build_dataset (datasetCfgOf cfg st))).map some
          else List.replicate (ext.build_dataset (datasetCfgOf cfg st)).length none } := by
  have hplen : (((chunks cfg.data.samples_per_gpu (ext.build_dataset (datasetCfgOf cfg st))).map
      ext.forward).flatten).length = (ext.build_dataset (datasetCfgOf cfg st)).length := by
    rw [flatten_map_length ext.forward _ (fun c _ => hfwd c), chunks_flatten]
  unfold ClsInferrer.infer
  rw [if_neg (by simp [hbranch])]
  · exact assertEqualLengths_eq_ok
      (by rcases df <;> simp [hplen, FeatureVectorHook.records])
      (by rcases df <;> rcases dsm <;>
        simp [hplen, FeatureVectorHook.records, SaliencyMapHook.records])

/-- Helper: `_infer` always records `hasattr(model, 'extract_prob')` on the
stage. -/
theorem infer_post_extract (st : Stage) (ext : ExtEnv σ ρ φ μ π) (cfg : Cfg)
    (df dsm : Bool) :
    (ClsInferrer.infer st ext cfg df dsm).post.extract_prob = ext.extract_prob := by
  unfold ClsInferrer.infer
  split <;> rfl

/-- Helper: unfolding of `run` past the mode gate when `_infer` returns a
bundle: the working directory is created, then the task-adaptation/
`extract_prob` test picks between persisting the bundle and returning it. -/
theorem run_mode_pass_ok (st : Stage) (ext : ExtEnv σ ρ φ μ π) (kw : Kwargs)
    (hmode : kw.mode.getD "train" ∈ st.mode) (b : Bundle ρ φ μ)
    (hres : (ClsInferrer.infer st ext ext.cfg (kw.dump_features.getD false)
        (kw.dump_saliency_map.getD false)).result = Except.ok b) :
    ClsInferrer.run st ext kw =
      if ext.cfg.task_adapt && ext.extract_prob then
        { result := Except.ok
            { pre_stage_res := some (ext.cfg.work_dir ++ "/pre_stage_res.npy")
              outputs := none }
          trace := (Event.configure :: Event.mkdir ext.cfg.work_dir ::
              (ClsInferrer.infer st ext ext.cfg (kw.dump_features.getD false)
                (kw.dump_saliency_map.getD false)).trace) ++
            [Event.save (ext.cfg.work_dir ++ "/pre_stage_res.npy") b]
          post := some (ClsInferrer.infer st ext ext.cfg (kw.dump_features.getD false)
              (kw.dump_saliency_map.getD false)).post }
      else
        { result := Except.ok { pre_stage_res := none, outputs := some b }
          trace := Event.configure :: Event.mkdir ext.cfg.work_dir ::
            (ClsInferrer.infer st ext ext.cfg (kw.dump_features.getD false)
              (kw.dump_saliency_map.getD false)).trace
          post := some (ClsInferrer.infer st ext ext.cfg (kw.dump_features.getD false)
              (kw.dump_saliency_map.getD false)).post } := by
  unfold ClsInferrer.run
  rw [if_neg (by simp [hmode])]
  simp only [hres, infer_post_extract]

/-- Helper: unfolding of `run` past the mode gate when the `_infer` assertion
fails: the error propagates uncaught and nothing is saved. -/
theorem run_mode_pass_error (st : Stage) (ext : ExtEnv σ ρ φ μ π) (kw : Kwargs)
    (hmode : kw.mode.getD "train" ∈ st.mode) (e : String)
    (hres : (ClsInferrer.infer st ext ext.cfg (kw.dump_features.getD false)
        (kw.dump_saliency_map.getD false)).result = Except.error e) :
    ClsInferrer.run st ext kw =
      { result := Except.error e
        trace := Event.configure :: Event.mkdir ext.cfg.work_dir ::
          (ClsInferrer.infer st ext ext.cfg (kw.dump_features.getD false)
            (kw.dump_saliency_map.getD false)).trace
        post := some (ClsInferrer.infer st ext ext.cfg (kw.dump_features.getD false)
            (kw.dump_saliency_map.getD false)).post } := by
  unfold ClsInferrer.run
  rw [if_neg (by simp [hmode])]
  simp only [hres]

/-- A concrete non-task-adaptation configuration for witnesses. -/
def cfgW : Cfg :=
  { data := { train := { source := "train-src", pipeline := "train-pipe" }
              test := { source := "test-src", pipeline := "test-pipe" }
              samples_per_gpu := 2
              workers_per_gpu := 1 }
    task_adapt := false
    work_dir := "wd"
    load_from := some "ckpt.pth"
    fp16 := false }

/-- A concrete external environment for witnesses: a 3-sample test dataset,
a model that returns each batch as its predictions, and no `extract_prob`
support. -/
def extW : ExtEnv Nat Nat Nat Nat Nat :=
  { cfg := cfgW
    build_dataset := fun d => if d.pipeline = "test-pipe" then [10, 11, 12] else [0]
    forward := fun b => b
    featureOf := fun s => s + 100
    saliencyOf := fun s => s + 200
    extract_prob := false
    old_prob := [("task0", fun i => i)] }

/-- A concrete stage allowing modes `train` and `infer`. -/
def stW : Stage := { mode := ["train", "infer"], hasEval := false }

/-- Concrete keyword options: mode `infer`, dump feature vectors only. -/
def kwW : Kwargs :=
  { dump_features := some true, dump_saliency_map := none, mode := some "infer" }

/-- Claim C4: when the mode option (defaulted to `train`) is not in the
stage's allowed-modes collection, `run` returns the empty mapping, performs
no configuration, dataset, dataloader or model construction, creates no
working directory, and leaves no attributes on the stage. -/
theorem C4_mode_gate (st : Stage) (ext : ExtEnv σ ρ φ μ π) (kw : Kwargs)
    (hmode : kw.mode.getD "train" ∉ st.mode) :
    ClsInferrer.run st ext kw =
      { result := Except.ok { pre_stage_res := none, outputs := none }
        trace := []
        post := none } := by
  unfold ClsInferrer.run
  simp [hmode]

/-- Witness for C4 at a concrete input: mode `absent` is not among
`["train", "infer"]`, so the run returns the empty mapping with an empty
effect trace. -/
theorem C4_mode_gate_witness :
    ClsInferrer.run stW extW
        { dump_features := none, dump_saliency_map := none, mode := some "absent" } =
      { result := Except.ok { pre_stage_res := none, outputs := none }
        trace := []
        post := none } :=
  C4_mode_gate stW extW _ (by decide)

/-- Claim C10: an absent mode option behaves exactly as the string `train`:
the whole run outcome coincides, and when `train` is not among the allowed
modes the result is the empty mapping. -/
theorem C10_default_mode (st : Stage) (ext : ExtEnv σ ρ φ μ π) (df dsm : Option Bool) :
    ClsInferrer.run st ext { dump_features := df, dump_saliency_map := dsm, mode := none } =
      ClsInferrer.run st ext
        { dump_features := df, dump_saliency_map := dsm, mode := some "train" } ∧
    ("train" ∉ st.mode →
      ClsInferrer.run st ext { dump_features := df, dump_saliency_map := dsm, mode := none } =
        { result := Except.ok { pre_stage_res := none, outputs := none }
          trace := []
          post := none }) := by
  refine ⟨rfl, fun h => ?_⟩
  unfold ClsInferrer.run
  simp [h]

/-- Witness for C10 at a concrete input: with allowed modes `["infer"]`, a
run without a mode option equals the run with mode `train` and returns the
empty mapping. -/
theorem C10_default_mode_witness :
    (ClsInferrer.run { mode := ["infer"], hasEval := false } extW
        { dump_features := none, dump_saliency_map := none, mode := none } =
      ClsInferrer.run { mode := ["infer"], hasEval := false } extW
        { dump_features := none, dump_saliency_map := none, mode := some "train" }) ∧
    ClsInferrer.run { mode := ["infer"], hasEval := false } extW
        { dump_features := none, dump_saliency_map := none, mode := none } =
      { result := Except.ok { pre_stage_res := none, outputs := none }
        trace := []
        post := none } :=
  ⟨(C10_default_mode { mode := ["infer"], hasEval := false } extW none none).1,
   (C10_default_mode { mode := ["infer"], hasEval := false } extW none none).2 (by decide)⟩

/-- Claim C3: every run past the mode gate that returns does so with a
mapping holding exactly one of the keys `pre_stage_res` and `outputs`. -/
theorem C3_result_xor (st : Stage) (ext : ExtEnv σ ρ φ μ π) (kw : Kwargs)
    (hmode : kw.mode.getD "train" ∈ st.mode) (r : RunResult ρ φ μ)
    (hr : (ClsInferrer.run st ext kw).result = Except.ok r) :
    (r.pre_stage_res.isSome = true ∧ r.outputs = none) ∨
      (r.pre_stage_res = none ∧ r.outputs.isSome = true) := by
  rcases hres : (ClsInferrer.infer st ext ext.cfg (kw.dump_features.getD false)
      (kw.dump_saliency_map.getD false)).result with e | b
  · rw [run_mode_pass_error st ext kw hmode e hres] at hr
    cases hr
  · rw [run_mode_pass_ok st ext kw hmode b hres] at hr
    split at hr <;> simp only [Except.ok.injEq] at hr <;> subst hr <;> simp

/-- Witness for C3 at a concrete input: the concrete run returns a mapping
with only the `outputs` key. -/
theorem C3_result_xor_witness :
    (({ pre_stage_res := none
        outputs := some { eval_predictions := [10, 11, 12]
                          feature_vectors := [some 110, some 111, some 112]
                          saliency_maps := [none, none, none] } } :
        RunResult Nat Nat Nat).pre_stage_res.isSome = true ∧
      ({ pre_stage_res := none
         outputs := some { eval_predictions := [10, 11, 12]
                           feature_vectors := [some 110, some 111, some 112]
                           saliency_maps := [none, none, none] } } :
        RunResult Nat Nat Nat).outputs = none) ∨
    (({ pre_stage_res := none
        outputs := some { eval_predictions := [10, 11, 12]
                          feature_vectors := [some 110, some 111, some 112]
                          saliency_maps := [none, none, none] } } :
        RunResult Nat Nat Nat).pre_stage_res = none ∧
      ({ pre_stage_res := none
         outputs := some { eval_predictions := [10, 11, 12]
                           feature_vectors := [some 110, some 111, some 112]
                           saliency_maps := [none, none, none] } } :
        RunResult Nat Nat Nat).outputs.isSome = true) :=
  C3_result_xor stW extW kwW (by decide) _ rfl

/-- Claim C1: in every mode-passing run that does not take the
task-adaptation extraction branch, and for every combination of the dump
flags, `_infer` returns (rather than dying on the assertion) a bundle whose
three sequences each have exactly dataset-size length, provided the model
emits one prediction per sample; and no bundle with unequal lengths is ever
returned: such a violation is the fatal assertion (`Except.error`). -/
theorem C1_equal_lengths (st : Stage) (ext : ExtEnv σ ρ φ μ π) (kw : Kwargs)
    (_hmode : kw.mode.getD "train" ∈ st.mode)
    (hbranch : (ext.cfg.task_adapt && !st.hasEval && ext.extract_prob) = false)
    (hfwd : ∀ b : List σ, (ext.forward b).length = b.length) :
    (∃ b : Bundle ρ φ μ,
      (ClsInferrer.infer st ext ext.cfg (kw.dump_features.getD false)
          (kw.dump_saliency_map.getD false)).result = Except.ok b ∧
        b.eval_predictions.length = (ext.build_dataset (datasetCfgOf ext.cfg st)).length ∧
        b.feature_vectors.length = (ext.build_dataset (datasetCfgOf ext.cfg st)).length ∧
        b.saliency_maps.length = (ext.build_dataset (datasetCfgOf ext.cfg st)).length) ∧
    (∀ (st2 : Stage) (ext2 : ExtEnv σ ρ φ μ π) (cfg2 : Cfg) (df2 dsm2 : Bool)
        (b2 : Bundle ρ φ μ),
      (ClsInferrer.infer st2 ext2 cfg2 df2 dsm2).result = Except.ok b2 →
        b2.eval_predictions.length = b2.feature_vectors.length ∧
        b2.feature_vectors.length = b2.saliency_maps.length) := by
  refine ⟨⟨_, infer_else_result st ext ext.cfg _ _ hbranch hfwd, ?_, ?_, ?_⟩,
    fun st2 ext2 cfg2 df2 dsm2 b2 h => infer_result_lengths st2 ext2 cfg2 df2 dsm2 b2 h⟩
  · rw [flatten_map_length ext.forward _ (fun c _ => hfwd c), chunks_flatten]
  · rcases kw.dump_features.getD false <;> simp [FeatureVectorHook.records]
  · rcases kw.dump_saliency_map.getD false <;> simp [SaliencyMapHook.records]

/-- Witness for C1 at a concrete input: a 3-sample run with feature dumping
on and saliency dumping off. -/
theorem C1_equal_lengths_witness :
    (∃ b : Bundle Nat Nat Nat,
      (ClsInferrer.infer stW extW extW.cfg (kwW.dump_features.getD false)
          (kwW.dump_saliency_map.getD false)).result = Except.ok b ∧
        b.eval_predictions.length = (extW.build_dataset (datasetCfgOf extW.cfg stW)).length ∧
        b.feature_vectors.length = (extW.build_dataset (datasetCfgOf extW.cfg stW)).length ∧
        b.saliency_maps.length = (extW.build_dataset (datasetCfgOf extW.cfg stW)).length) ∧
    (∀ (st2 : Stage) (ext2 : ExtEnv Nat Nat Nat Nat Nat) (cfg2 : Cfg) (df2 dsm2 : Bool)
        (b2 : Bundle Nat Nat Nat),
      (ClsInferrer.infer st2 ext2 cfg2 df2 dsm2).result = Except.ok b2 →
        b2.eval_predictions.length = b2.feature_vectors.length ∧
        b2.feature_vectors.length = b2.saliency_maps.length) :=
  C1_equal_lengths stW extW kwW (by decide) (by decide) (fun _ => rfl)

/-- Claim C6: in every run through the normal (non-extraction) inference
branch, when `dump_features` is false the feature-vector sequence is exactly
dataset-size many `none` placeholders, and likewise for the saliency-map
sequence when `dump_saliency_map` is false. -/
theorem C6_null_placeholders (st : Stage) (ext : ExtEnv σ ρ φ μ π) (df dsm : Bool)
    (hbranch : (ext.cfg.task_adapt && !st.hasEval && ext.extract_prob) = false)
    (hfwd : ∀ b : List σ, (ext.forward b).length = b.length) :
    ∃ b : Bundle ρ φ μ,
      (ClsInferrer.infer st ext ext.cfg df dsm).result = Except.ok b ∧
      (df = false → b.feature_vectors =
        List.replicate (ext.build_dataset (datasetCfgOf ext.cfg st)).length none) ∧
      (dsm = false → b.saliency_maps =
        List.replicate (ext.build_dataset (datasetCfgOf ext.cfg st)).length none) :=
  ⟨_, infer_else_result st ext ext.cfg df dsm hbranch hfwd,
    fun h => by simp [h], fun h => by simp [h]⟩

/-- Witness for C6 at a concrete input: both dump flags false over the
3-sample dataset. -/
theorem C6_null_placeholders_witness :
    ∃ b : Bundle Nat Nat Nat,
      (ClsInferrer.infer stW extW extW.cfg false false).result = Except.ok b ∧
      (false = false → b.feature_vectors =
        List.replicate (extW.build_dataset (datasetCfgOf extW.cfg stW)).length none) ∧
      (false = false → b.saliency_maps =
        List.replicate (extW.build_dataset (datasetCfgOf extW.cfg stW)).length none) :=
  C6_null_placeholders stW extW false false (by decide) (fun _ => rfl)

/-- Helper: shape of the `run` trace for a mode-passing run: configuration,
working-directory creation, the setup events, `model.eval()`, then only loop
events (no-gradient forward passes over the dataloader batches, the
probability-extraction pass) and possibly the single save of
`pre_stage_res.npy`. -/
theorem run_trace_shape (st : Stage) (ext : ExtEnv σ ρ φ μ π) (kw : Kwargs)
    (hmode : kw.mode.getD "train" ∈ st.mode) :
    ∃ tail, (ClsInferrer.run st ext kw).trace =
        Event.configure :: Event.mkdir ext.cfg.work_dir ::
          (setupTrace ext.cfg st ++ Event.modelEval :: tail) ∧
      ∀ e ∈ tail, e = Event.probExtract ∨
        (∃ b, e = Event.forwardPass true b ∧
          b ∈ chunks ext.cfg.data.samples_per_gpu
            (ext.build_dataset (datasetCfgOf ext.cfg st))) ∨
        (∃ bd, e = Event.save (ext.cfg.work_dir ++ "/pre_stage_res.npy") bd) := by
  obtain ⟨t, ht, hmem⟩ := infer_trace_shape st ext ext.cfg (kw.dump_features.getD false)
    (kw.dump_saliency_map.getD false)
  rcases hres : (ClsInferrer.infer st ext ext.cfg (kw.dump_features.getD false)
      (kw.dump_saliency_map.getD false)).result with e | b
  · rw [run_mode_pass_error st ext kw hmode e hres]
    exact ⟨t, by simp [ht], fun e he => (hmem e he).imp id Or.inl⟩
  · rw [run_mode_pass_ok st ext kw hmode b hres]
    split
    · refine ⟨t ++ [Event.save (ext.cfg.work_dir ++ "/pre_stage_res.npy") b], ?_, ?_⟩
      · simp [ht, List.append_assoc]
      · intro e he
        rcases List.mem_append.mp he with h | h
        · exact (hmem e h).imp id Or.inl
        · simp only [List.mem_singleton] at h
          subst h
          exact Or.inr (Or.inr ⟨b, rfl⟩)
    · exact ⟨t, by simp [ht], fun e he => (hmem e he).imp id Or.inl⟩

/-- Claim C7: in every mode-passing run, the dataloader is constructed with
`shuffle=False` and `dist=False` (and every dataloader construction in the
trace is), the model is switched to evaluation mode before any forward pass,
every forward pass runs with gradients disabled, and in the normal branch the
returned predictions are the per-batch model outputs concatenated in
dataloader iteration order over batches that partition the dataset in
order. -/
theorem C7_eval_loop (st : Stage) (ext : ExtEnv σ ρ φ μ π) (kw : Kwargs)
    (hmode : kw.mode.getD "train" ∈ st.mode)
    (hfwd : ∀ b : List σ, (ext.forward b).length = b.length) :
    Event.buildDataloader (loaderArgsOf ext.cfg) ∈ (ClsInferrer.run st ext kw).trace ∧
    (∀ a : LoaderArgs, Event.buildDataloader a ∈ (ClsInferrer.run st ext kw).trace →
      a.shuffle = false ∧ a.dist = false) ∧
    (∃ t1 t2, (ClsInferrer.run st ext kw).trace = t1 ++ Event.modelEval :: t2 ∧
      ∀ e ∈ t1, e.isForward = false) ∧
    (∀ (ng : Bool) (batch : List σ),
      Event.forwardPass ng batch ∈ (ClsInferrer.run st ext kw).trace → ng = true) ∧
    ((ext.cfg.task_adapt && !st.hasEval && ext.extract_prob) = false →
      ∃ b : Bundle ρ φ μ,
        (ClsInferrer.infer st ext ext.cfg (kw.dump_features.getD false)
            (kw.dump_saliency_map.getD false)).result = Except.ok b ∧
        b.eval_predictions = ((chunks ext.cfg.data.samples_per_gpu
            (ext.build_dataset (datasetCfgOf ext.cfg st))).map ext.forward).flatten ∧
        (chunks ext.cfg.data.samples_per_gpu
            (ext.build_dataset (datasetCfgOf ext.cfg st))).flatten =
          ext.build_dataset (datasetCfgOf ext.cfg st)) := by
  obtain ⟨tail, ht, hmem⟩ := run_trace_shape st ext kw hmode
  refine ⟨?_, ?_, ?_, ?_, ?_⟩
  · rw [ht]
    simp only [List.mem_cons, List.mem_append]
    exact Or.inr (Or.inr (Or.inl (buildDataloader_mem_setupTrace ext.cfg st)))
  · intro a ha
    rw [ht] at ha
    simp only [List.mem_cons, List.mem_append] at ha
    rcases ha with h | h | h | h
    · cases h
    · cases h
    · rw [setupTrace_buildDataloader ext.cfg st a h]
      exact ⟨rfl, rfl⟩
    · rcases h with h | h
      · cases h
      · rcases hmem _ h with h1 | ⟨b, h1, _⟩ | ⟨bd, h1⟩ <;> cases h1
  · refine ⟨Event.configure :: Event.mkdir ext.cfg.work_dir :: setupTrace ext.cfg st,
      tail, by simp [ht], ?_⟩
    intro e he
    simp only [List.mem_cons] at he
    rcases he with h | h | h
    · subst h; rfl
    · subst h; rfl
    · exact setupTrace_no_forward ext.cfg st e h
  · intro ng batch hb
    rw [ht] at hb
    simp only [List.mem_cons, List.mem_append] at hb
    rcases hb with h | h | h | h
    · cases h
    · cases h
    · exact absurd (setupTrace_no_forward ext.cfg st _ h) (by simp [Event.isForward])
    · rcases h with h | h
      · cases h
      · rcases hmem _ h with h1 | ⟨b, h1, _⟩ | ⟨bd, h1⟩
        · cases h1
        · cases h1; rfl
        · cases h1
  · intro hbranch
    exact ⟨_, infer_else_result st ext ext.cfg _ _ hbranch hfwd, rfl, chunks_flatten _ _⟩

/-- Witness for C7 at a concrete input: the 3-sample run with mode `infer`. -/
theorem C7_eval_loop_witness :
    Event.buildDataloader (loaderArgsOf extW.cfg) ∈ (ClsInferrer.run stW extW kwW).trace ∧
    (∀ a : LoaderArgs, Event.buildDataloader a ∈ (ClsInferrer.run stW extW kwW).trace →
      a.shuffle = false ∧ a.dist = false) ∧
    (∃ t1 t2, (ClsInferrer.run stW extW kwW).trace = t1 ++ Event.modelEval :: t2 ∧
      ∀ e ∈ t1, e.isForward = false) ∧
    (∀ (ng : Bool) (batch : List Nat),
      Event.forwardPass ng batch ∈ (ClsInferrer.run stW extW kwW).trace → ng = true) ∧
    ((extW.cfg.task_adapt && !stW.hasEval && extW.extract_prob) = false →
      ∃ b : Bundle Nat Nat Nat,
        (ClsInferrer.infer stW extW extW.cfg (kwW.dump_features.getD false)
            (kwW.dump_saliency_map.getD false)).result = Except.ok b ∧
        b.eval_predictions = ((chunks extW.cfg.data.samples_per_gpu
            (extW.build_dataset (datasetCfgOf extW.cfg stW))).map extW.forward).flatten ∧
        (chunks extW.cfg.data.samples_per_gpu
            (extW.build_dataset (datasetCfgOf extW.cfg stW))).flatten =
          extW.build_dataset (datasetCfgOf extW.cfg stW)) :=
  C7_eval_loop stW extW kwW (by decide) (fun _ => rfl)

/-- Claim C9: in every mode-passing run, the (unique) dataset construction
uses the training data configuration with its pipeline replaced by the test
pipeline exactly when the task-adaptation flag is set and the stage has no
`eval` attribute — even when the model does not support probability
extraction, in which case the normal prediction loop runs over that
training-derived dataset — and uses the test data configuration in every
other case. -/
theorem C9_dataset_selection (st : Stage) (ext : ExtEnv σ ρ φ μ π) (kw : Kwargs)
    (hmode : kw.mode.getD "train" ∈ st.mode)
    (hfwd : ∀ b : List σ, (ext.forward b).length = b.length) :
    (∀ d : DataCfg, Event.buildDataset d ∈ (ClsInferrer.run st ext kw).trace →
      d = datasetCfgOf ext.cfg st) ∧
    Event.buildDataset (datasetCfgOf ext.cfg st) ∈ (ClsInferrer.run st ext kw).trace ∧
    (ext.cfg.task_adapt = true → st.hasEval = false →
      datasetCfgOf ext.cfg st =
        { source := ext.cfg.data.train.source
          pipeline := ext.cfg.data.test.pipeline }) ∧
    (¬(ext.cfg.task_adapt = true ∧ st.hasEval = false) →
      datasetCfgOf ext.cfg st = ext.cfg.data.test) ∧
    (ext.cfg.task_adapt = true → st.hasEval = false → ext.extract_prob = false →
      ∃ b : Bundle ρ φ μ,
        (ClsInferrer.infer st ext ext.cfg (kw.dump_features.getD false)
            (kw.dump_saliency_map.getD false)).result = Except.ok b ∧
        b.eval_predictions = ((chunks ext.cfg.data.samples_per_gpu
            (ext.build_dataset (datasetCfgOf ext.cfg st))).map ext.forward).flatten) := by
  obtain ⟨tail, ht, hmem⟩ := run_trace_shape st ext kw hmode
  refine ⟨?_, ?_, ?_, ?_, ?_⟩
  · intro d hd
    rw [ht] at hd
    simp only [List.mem_cons, List.mem_append] at hd
    rcases hd with h | h | h | h
    · cases h
    · cases h
    · exact setupTrace_buildDataset ext.cfg st d h
    · rcases h with h | h
      · cases h
      · rcases hmem _ h with h1 | ⟨b, h1, _⟩ | ⟨bd, h1⟩ <;> cases h1
  · rw [ht]
    simp only [List.mem_cons, List.mem_append]
    exact Or.inr (Or.inr (Or.inl (buildDataset_mem_setupTrace ext.cfg st)))
  · intro hta hev
    unfold datasetCfgOf
    rw [if_pos (by simp [hta, hev])]
  · intro hne
    unfold datasetCfgOf
    rw [if_neg ?_]
    simp only [Bool.and_eq_true, Bool.not_eq_true']
    rintro ⟨h1, h2⟩
    exact hne ⟨h1, h2⟩
  · intro hta hev hep
    exact ⟨_, infer_else_result st ext ext.cfg _ _ (by simp [hep]) hfwd, rfl⟩

/-- Witness for C9 at a concrete input: a task-adaptation run with no `eval`
attribute and a model without `extract_prob`: the dataset comes from the
training source with the test pipeline and the normal loop runs over it. -/
theorem C9_dataset_selection_witness :
    (∀ d : DataCfg,
      Event.buildDataset d ∈
          (ClsInferrer.run stW
            { extW with cfg := { cfgW with task_adapt := true } }
            kwW).trace →
      d = datasetCfgOf { cfgW with task_adapt := true } stW) ∧
    Event.buildDataset (datasetCfgOf { cfgW with task_adapt := true } stW) ∈
      (ClsInferrer.run stW { extW with cfg := { cfgW with task_adapt := true } } kwW).trace ∧
    (({ cfgW with task_adapt := true } : Cfg).task_adapt = true → stW.hasEval = false →
      datasetCfgOf { cfgW with task_adapt := true } stW =
        { source := ({ cfgW with task_adapt := true } : Cfg).data.train.source
          pipeline := ({ cfgW with task_adapt := true } : Cfg).data.test.pipeline }) ∧
    (¬(({ cfgW with task_adapt := true } : Cfg).task_adapt = true ∧ stW.hasEval = false) →
      datasetCfgOf { cfgW with task_adapt := true } stW =
        ({ cfgW with task_adapt := true } : Cfg).data.test) ∧
    (({ cfgW with task_adapt := true } : Cfg).task_adapt = true → stW.hasEval = false →
      ({ extW with cfg := { cfgW with task_adapt := true } } : ExtEnv Nat Nat Nat Nat Nat).extract_prob = false →
      ∃ b : Bundle Nat Nat Nat,
        (ClsInferrer.infer stW { extW with cfg := { cfgW with task_adapt := true } }
            ({ extW with cfg := { cfgW with task_adapt := true } } : ExtEnv Nat Nat Nat Nat Nat).cfg
            (kwW.dump_features.getD false) (kwW.dump_saliency_map.getD false)).result =
          Except.ok b ∧
        b.eval_predictions = ((chunks ({ cfgW with task_adapt := true } : Cfg).data.samples_per_gpu
            (({ extW with cfg := { cfgW with task_adapt := true } } : ExtEnv Nat Nat Nat Nat Nat).build_dataset
              (datasetCfgOf { cfgW with task_adapt := true } stW))).map
          ({ extW with cfg := { cfgW with task_adapt := true } } : ExtEnv Nat Nat Nat Nat Nat).forward).flatten) :=
  C9_dataset_selection stW { extW with cfg := { cfgW with task_adapt := true } } kwW
    (by decide) (fun _ => rfl)

/-- A concrete task-adaptation configuration: extraction pre-stage case. -/
def cfgTA : Cfg :=
  { data := { train := { source := "train-src", pipeline := "train-pipe" }
              test := { source := "test-src", pipeline := "test-pipe" }
              samples_per_gpu := 1
              workers_per_gpu := 0 }
    task_adapt := true
    work_dir := "wd"
    load_from := none
    fp16 := false }

/-- A concrete extraction-capable environment over one training record. -/
def extTA : ExtEnv Nat Nat Nat Nat Nat :=
  { cfg := cfgTA
    build_dataset := fun d => if d.source = "train-src" then [5] else [7, 8]
    forward := fun b => b
    featureOf := fun s => s + 100
    saliencyOf := fun s => s + 200
    extract_prob := true
    old_prob := [("task0", fun i => 40 + i)] }

/-- A concrete stage for the extraction pre-stage: mode `train` allowed, no
`eval` attribute. -/
def stTA : Stage := { mode := ["train"], hasEval := false }

/-- Concrete keyword options with no explicit mode (defaults to `train`). -/
def kwTA : Kwargs := { dump_features := none, dump_saliency_map := none, mode := none }

/-- Claim C2 (refuted by the code): the extraction pass does run instead of
the prediction loop (`probExtract`, no forward passes) and a path is
returned, but the persisted payload is the bundle of three empty lists, not
the annotated records: `outputs = data_infos` at inferrer.py line 100 is
overwritten by the unconditional `outputs = dict(...)` at lines 114-118.
The annotated records survive only on `self.dataset`. -/
theorem C2_overwritten_outputs :
    (ClsInferrer.run stTA extTA kwTA).result =
      Except.ok { pre_stage_res := some "wd/pre_stage_res.npy", outputs := none } ∧
    (ClsInferrer.run stTA extTA kwTA).trace =
      [Event.configure, Event.mkdir "wd",
       Event.buildDataset { source := "train-src", pipeline := "test-pipe" },
       Event.buildDataloader
         { samples_per_gpu := 1, workers_per_gpu := 0, dist := false, shuffle := false
           round_up := false, persistent_workers := false },
       Event.buildModel, Event.modelEval, Event.probExtract,
       Event.save "wd/pre_stage_res.npy"
         { eval_predictions := [], feature_vectors := [], saliency_maps := [] }] ∧
    (ClsInferrer.run stTA extTA kwTA).post =
      some { dataset := [{ info := 5, soft_label := some [("task0", 40)] }]
             extract_prob := true } :=
  ⟨rfl, rfl, rfl⟩

/-- A concrete extraction-capable environment over two training records with
two tasks. -/
def extTA2 : ExtEnv Nat Nat Nat Nat Nat :=
  { cfg := { cfgTA with work_dir := "wd5" }
    build_dataset := fun d => if d.source = "train-src" then [5, 6] else [7]
    forward := fun b => b
    featureOf := fun s => s
    saliencyOf := fun s => s
    extract_prob := true
    old_prob := [("a", fun i => 10 + i), ("b", fun i => 20 + i)] }

/-- Claim C5 (refuted by the code): over a 2-record dataset the augmentation
loop does compute, for each record `i` and task `t`, the soft label
`old_prob[t][i]` — visible on `self.dataset` — but the returned and persisted
structure is the empty three-list bundle (0 entries, not N = 2), because the
`outputs = data_infos` assignment is overwritten before `_infer` returns. -/
theorem C5_records_not_returned :
    (ClsInferrer.run stTA extTA2 kwTA).post =
      some { dataset := [{ info := 5, soft_label := some [("a", 10), ("b", 20)] },
                         { info := 6, soft_label := some [("a", 11), ("b", 21)] }]
             extract_prob := true } ∧
    (ClsInferrer.run stTA extTA2 kwTA).result =
      Except.ok { pre_stage_res := some "wd5/pre_stage_res.npy", outputs := none } ∧
    (ClsInferrer.run stTA extTA2 kwTA).trace =
      [Event.configure, Event.mkdir "wd5",
       Event.buildDataset { source := "train-src", pipeline := "test-pipe" },
       Event.buildDataloader
         { samples_per_gpu := 1, workers_per_gpu := 0, dist := false, shuffle := false
           round_up := false, persistent_workers := false },
       Event.buildModel, Event.modelEval, Event.probExtract,
       Event.save "wd5/pre_stage_res.npy"
         { eval_predictions := [], feature_vectors := [], saliency_maps := [] }] :=
  ⟨rfl, rfl, rfl⟩

/-- A concrete extraction-capable environment exercising the optional fp16
wrap and checkpoint load, over one training record. -/
def extTA8 : ExtEnv Nat Nat Nat Nat Nat :=
  { cfg := { cfgTA with work_dir := "w8", load_from := some "ck", fp16 := true }
    build_dataset := fun d => if d.source = "train-src" then [9] else [7]
    forward := fun b => b
    featureOf := fun s => s
    saliencyOf := fun s => s
    extract_prob := true
    old_prob := [("task0", fun i => 40 + i)] }

/-- Claim C8 (refuted by the code on one clause): the full effect trace shows
the working directory is created before every inference effect, the single
file write goes to the fixed name `pre_stage_res.npy` inside it, and the
returned `pre_stage_res` equals that path — but the serialized payload is the
empty three-list bundle, not the per-record outputs, which remain only on
`self.dataset`. -/
theorem C8_single_write :
    (ClsInferrer.run stTA extTA8 kwTA).trace =
      [Event.configure, Event.mkdir "w8",
       Event.buildDataset { source := "train-src", pipeline := "test-pipe" },
       Event.buildDataloader
         { samples_per_gpu := 1, workers_per_gpu := 0, dist := false, shuffle := false
           round_up := false, persistent_workers := false },
       Event.buildModel, Event.wrapFp16, Event.loadCheckpoint "ck",
       Event.modelEval, Event.probExtract,
       Event.save "w8/pre_stage_res.npy"
         { eval_predictions := [], feature_vectors := [], saliency_maps := [] }] ∧
    (ClsInferrer.run stTA extTA8 kwTA).result =
      Except.ok { pre_stage_res := some "w8/pre_stage_res.npy", outputs := none } ∧
    (ClsInferrer.run stTA extTA8 kwTA).post =
      some { dataset := [{ info := 9, soft_label := some [("task0", 40)] }]
             extract_prob := true } :=
  ⟨rfl, rfl, rfl⟩
